import Mathlib

/-!
Shallow embedding of the bobo-desk-pet interaction pipeline
(pkg/voice/audio.go, pkg/voice/interface.go, the whisper transcriber,
and the smart Claude client in pkg/config/config.go), together with
theorems settling the frozen claims about it.

Go strings are modelled as `List Char` (`GoStr`).  Character case mapping
is modelled on the ASCII range, which is exact for every string the
program and the claims manipulate (Go's `strings.ToLower` agrees with
the ASCII mapping on ASCII input).  External processes (ffmpeg, whisper,
the TTS backend, the Vertex AI transport) are modelled as explicit
outcome parameters / oracle functions, so every code path of the Go
functions is a case of the Lean definition.
-/

namespace BoboDeskPet

/-- Go strings, modelled as lists of characters. -/
abbrev GoStr := List Char

/-- ASCII lower-casing of one character, as Go `strings.ToLower` acts on
the ASCII range (the only range the program's patterns use). -/
def goToLower (c : Char) : Char :=
  if 'A' ≤ c ∧ c ≤ 'Z' then Char.ofNat (c.toNat + 32) else c

/-- `strings.ToLower` on a whole string (ASCII range). -/
def strLower (s : GoStr) : GoStr := s.map goToLower

/-- The RE2 `\s` class: `[\t\n\f\r ]` (Go regexp's Perl whitespace class). -/
def isRE2Space (c : Char) : Bool :=
  c = '\t' || c = '\n' || c = Char.ofNat 12 || c = '\r' || c = ' '

/-- `unicode.IsSpace`, the class Go `strings.TrimSpace` trims: ASCII
whitespace plus the Unicode space runes. -/
def goUnicodeSpaceChars : List Char :=
  ['\t', '\n', Char.ofNat 11, Char.ofNat 12, '\r', ' ',
   Char.ofNat 0x85, Char.ofNat 0xA0, Char.ofNat 0x1680,
   Char.ofNat 0x2000, Char.ofNat 0x2001, Char.ofNat 0x2002, Char.ofNat 0x2003,
   Char.ofNat 0x2004, Char.ofNat 0x2005, Char.ofNat 0x2006, Char.ofNat 0x2007,
   Char.ofNat 0x2008, Char.ofNat 0x2009, Char.ofNat 0x200A,
   Char.ofNat 0x2028, Char.ofNat 0x2029, Char.ofNat 0x202F,
   Char.ofNat 0x205F, Char.ofNat 0x3000]

def goUnicodeIsSpace (c : Char) : Bool := decide (c ∈ goUnicodeSpaceChars)

/-- Does `pre` start the string `s`?  (Go `strings.HasPrefix`.) -/
def goStartsWith : GoStr → GoStr → Bool
  | [], _ => true
  | _ :: _, [] => false
  | a :: as, b :: bs => a = b && goStartsWith as bs

/-- Go `strings.Contains s sub`: `sub` occurs as a contiguous substring of `s`. -/
def goContains : GoStr → GoStr → Bool
  | [], sub => sub.isEmpty
  | s@(_ :: rest), sub => goStartsWith sub s || goContains rest sub

/-- Go `containsAny` helper from config.go: any of the substrings occurs. -/
def containsAny (text : GoStr) (subs : List GoStr) : Bool :=
  subs.any (fun sub => goContains text sub)

/-- Drop the trailing characters satisfying `p`. -/
def dropTrailing (p : Char → Bool) (l : GoStr) : GoStr :=
  (l.reverse.dropWhile p).reverse

/-- Go `strings.TrimSpace`: drop leading and trailing Unicode whitespace. -/
def goTrimSpace (l : GoStr) : GoStr :=
  dropTrailing goUnicodeIsSpace (l.dropWhile goUnicodeIsSpace)

/-- Go `strings.Split s (String.singleton sep)`: split at every separator;
always returns at least one (possibly empty) field. -/
def goSplitOn (sep : Char) : GoStr → List GoStr
  | [] => [[]]
  | c :: rest =>
    match goSplitOn sep rest with
    | [] => [[]]
    | w :: ws => if c = sep then [] :: w :: ws else (c :: w) :: ws

/-- Auxiliary scanner for `collapseRuns`: the flag records whether the
previous character was part of a run already replaced. -/
def collapseRunsAux (p : Char → Bool) (rep : GoStr) : Bool → GoStr → GoStr
  | _, [] => []
  | inRun, c :: rest =>
    if p c then (if inRun then [] else rep) ++ collapseRunsAux p rep true rest
    else c :: collapseRunsAux p rep false rest

/-- Replace every maximal run of characters satisfying `p` by `rep`
(the effect of Go `regexp.ReplaceAllString` with a pattern `X+`). -/
def collapseRuns (p : Char → Bool) (rep : GoStr) (l : GoStr) : GoStr :=
  collapseRunsAux p rep false l

/-- Fuel-driven body of `goReplaceAll`; the fuel starts at the string's
length, which is an upper bound on the number of steps. -/
def replaceAllFuel (pat rep : GoStr) : Nat → GoStr → GoStr
  | _, [] => []
  | 0, s => s
  | Nat.succ n, c :: rest =>
    if !pat.isEmpty && goStartsWith pat (c :: rest) then
      rep ++ replaceAllFuel pat rep n ((c :: rest).drop pat.length)
    else c :: replaceAllFuel pat rep n rest

/-- Go `strings.ReplaceAll s pat rep` for a non-empty pattern: replace the
leftmost, non-overlapping occurrences (the program only ever calls it
with non-empty literal patterns). -/
def goReplaceAll (s pat rep : GoStr) : GoStr := replaceAllFuel pat rep s.length s

/-- Decimal digits of a natural number (for Go `fmt.Sprintf` `%d`). -/
def natToChars (n : Nat) : GoStr := Nat.toDigits 10 n

/-! ## Capture adapter (pkg/voice/audio.go) -/

/-- Outcome of the external ffmpeg child process run by `recordWithFFmpeg`:
the process failed to run or exited non-zero; it exited cleanly but the
artifact is missing on disk; or it exited cleanly with the artifact present. -/
inductive FFmpegOutcome
  | runError
  | ranNoArtifact
  | ranWithArtifact
deriving DecidableEq

/-- The error values the capture path can produce. -/
inductive RecordErr
  | ffmpegFailed
  | fileNotCreated
  | ctxCanceled
deriving DecidableEq

/-- `recordWithFFmpeg` (audio.go): wraps a run failure, reports a missing
artifact as an error after a clean exit, and returns no error otherwise. -/
def recordWithFFmpeg : FFmpegOutcome → Option RecordErr
  | .runError => some RecordErr.ffmpegFailed
  | .ranNoArtifact => some RecordErr.fileNotCreated
  | .ranWithArtifact => none

/-- `RecordAudio` (audio.go): waits for `recordWithFFmpeg`; a context
cancellation observed first yields `(false, ctx.Err())`; a recording error
yields `(false, wrapped error)`; success yields `(true, nil)`. -/
def recordAudio (canceled : Bool) (o : FFmpegOutcome) : Bool × Option RecordErr :=
  if canceled then (false, some RecordErr.ctxCanceled)
  else
    match recordWithFFmpeg o with
    | some e => (false, some e)
    | none => (true, none)

/-! ## Transcription adapter (the whisper.cpp transcriber) -/

/-- `isTimestampLine` (transcriber): the Go regex
`^\s*\[.*-->\s*.*\]\s*$` holds of a line iff its first non-whitespace
character is `[`, its last non-whitespace character is `]`, and the text
strictly between them contains `-->`. -/
def isTimestampLine (l : GoStr) : Bool :=
  match l.dropWhile isRE2Space with
  | '[' :: r =>
    let r2 := dropTrailing isRE2Space r
    decide (r2.getLast? = some ']') && goContains r2.dropLast ("-->".data)
  | _ => false

/-- `isDebugLine` (transcriber): the lower-cased line contains one of the
known whisper.cpp diagnostic fragments. -/
def isDebugLine (l : GoStr) : Bool :=
  containsAny (strLower l)
    [("output_txt: saving output to").data,
     ("output_vtt: saving output to").data,
     ("output_srt: saving output to").data,
     ("whisper_print_timings:").data,
     ("load time =").data,
     ("fallbacks =").data,
     ("main:").data]

/-- The lines `parseWhisperOutput` keeps: split the trimmed output on
newlines, trim each line, and drop empty, timestamp, and debug lines. -/
def keptLines (output : GoStr) : List GoStr :=
  ((goSplitOn '\n' (goTrimSpace output)).map goTrimSpace).filter
    (fun l => !l.isEmpty && !isTimestampLine l && !isDebugLine l)

/-- `parseWhisperOutput` (transcriber): join the kept lines with spaces. -/
def parseWhisperOutput (output : GoStr) : GoStr :=
  List.intercalate (" ".data) (keptLines output)

/-- `cleanTranscription` (transcriber): strip placeholder artifacts,
collapse whitespace runs, and trim. -/
def cleanTranscription (text : GoStr) : GoStr :=
  let t1 := goReplaceAll text ("[BLANK_AUDIO]".data) []
  let t2 := goReplaceAll t1 ("(silence)".data) []
  let t3 := goReplaceAll t2 ("(music)".data) []
  let t4 := goReplaceAll t3 ("[música]".data) []
  let t5 := goReplaceAll t4 ("[MÚSICA]".data) []
  let t6 := collapseRuns isRE2Space (" ".data) t5
  goTrimSpace t6

/-- The pure core of `Transcribe` when the backend wrote its transcript to
standard output: parse the stdout then clean it. -/
def transcriptOfStdout (stdout : GoStr) : GoStr :=
  cleanTranscription (parseWhisperOutput stdout)

/-- A timestamp component of the form `hh:mm:ss.mmm`: twelve characters,
digits except for `:` at positions 2 and 5 and `.` at position 8. -/
def tsFormat (t : GoStr) : Bool :=
  t.length = 12 &&
  (t.enum.all fun p =>
    match p.1 with
    | 2 => p.2 = ':'
    | 5 => p.2 = ':'
    | 8 => p.2 = '.'
    | _ => p.2.isDigit)

/-- A line of the exact timestamp-range shape
`[hh:mm:ss.mmm --> hh:mm:ss.mmm]` named by the specification. -/
def specTimestampLine (l : GoStr) : Prop :=
  ∃ t1 t2, tsFormat t1 = true ∧ tsFormat t2 = true ∧
    l = '[' :: (t1 ++ (" --> ".data) ++ t2 ++ [']'])

/-! ## Synthesis adapter (SystemTTS, interface.go) -/

/-- The character class kept by `cleanTextForSpeech`'s first regex,
`[^\w\s\.\,\!\?\:\;\-\(\)\'\"áéíóúñÁÉÍÓÚÑüÜ]` (characters *in* this Lean
predicate are the ones the regex does not replace). -/
def allowedSpeechChar (c : Char) : Bool :=
  (('0' ≤ c && c ≤ '9') || ('a' ≤ c && c ≤ 'z') || ('A' ≤ c && c ≤ 'Z') || c = '_') ||
  isRE2Space c ||
  c = '.' || c = ',' || c = '!' || c = '?' || c = ':' || c = ';' || c = '-' ||
  c = '(' || c = ')' || c = '\'' || c = '"' ||
  c = 'á' || c = 'é' || c = 'í' || c = 'ó' || c = 'ú' || c = 'ñ' ||
  c = 'Á' || c = 'É' || c = 'Í' || c = 'Ó' || c = 'Ú' || c = 'Ñ' ||
  c = 'ü' || c = 'Ü'

/-- The characters removed by the markdown patterns `\*+ #+ (backtick)+ _+`
(each replaced by the empty string, i.e. simply removed). -/
def isMarkdownChar (c : Char) : Bool :=
  c = '*' || c = '#' || c = Char.ofNat 96 || c = '_'

/-- `cleanTextForSpeech` (SystemTTS): replace disallowed characters by
spaces, remove markdown markers, turn newline runs into sentence ends,
collapse whitespace runs and repeated periods, then trim. -/
def cleanTextForSpeech (text : GoStr) : GoStr :=
  let t1 := text.map (fun c => if allowedSpeechChar c then c else ' ')
  let t2 := t1.filter (fun c => !isMarkdownChar c)
  let t3 := collapseRuns (fun c => c = '\n') (". ".data) t2
  let t4 := collapseRuns isRE2Space (" ".data) t3
  let t5 := collapseRuns (fun c => c = '.') (".".data) t4
  goTrimSpace t5

/-- `Speak` (SystemTTS), with the backend invocation abstracted by the
`cmdFails` flag: returns whether a backend subprocess was spawned and the
error result.  Empty input and input that sanitizes to nothing are
no-ops with no subprocess and no error. -/
def speak (text : GoStr) (cmdFails : Bool) : Bool × Option Unit :=
  if text.isEmpty then (false, none)
  else if (cleanTextForSpeech text).isEmpty then (false, none)
  else (true, if cmdFails then some () else none)

/-! ## Session controller (Interface.Run, interface.go) -/

/-- The action the command loop takes for one dispatched command. -/
inductive LoopAction
  | handleRecord (durationSeconds : Nat)
  | handleTestMic
  | handleTestTTS
  | handleToggle
  | quitLoop
  | skipEmpty
  | warnUnknown
deriving DecidableEq

/-- The loop's per-line normalization:
`strings.TrimSpace (strings.ToLower line)`. -/
def normalizeCommand (line : GoStr) : GoStr := goTrimSpace (strLower line)

/-- The `switch command` dispatch of `Interface.Run`. -/
def dispatchCommand (cmd : GoStr) : LoopAction :=
  if cmd = "r".data then .handleRecord 7
  else if cmd = "l".data then .handleRecord 12
  else if cmd = "t".data then .handleTestMic
  else if cmd = "x".data then .handleTestTTS
  else if cmd = "s".data then .handleToggle
  else if cmd = "q".data then .quitLoop
  else if cmd = [] then .skipEmpty
  else .warnUnknown

/-- Does the action end the loop?  Only `q` returns from `Run`; every
handler failure is logged and the loop continues. -/
def loopExits : LoopAction → Bool
  | .quitLoop => true
  | _ => false

/-- The `Interface` session state.  `F` stands for Go `float64` values and
`A` for the adapter/client references held by the interface; the toggle
handler must leave all of them untouched. -/
structure InterfaceState (F A : Type) where
  vertexProjectID : GoStr
  vertexLocation : GoStr
  vertexModel : GoStr
  vertexMaxTokens : Int
  vertexTemperature : F
  vertexSystemPrompt : GoStr
  enableAutoSearch : Bool
  voiceUseWhisperCpp : Bool
  voiceWhisperCppPath : GoStr
  voiceWhisperModelPath : GoStr
  voiceSampleRate : Int
  voiceChannels : Int
  voiceChunkSize : Int
  ttsEnabled : Bool
  ttsRate : Int
  ttsVolume : F
  ttsVoiceID : GoStr
  adapters : A
deriving DecidableEq

/-- The `s` command handler:
`v.config.TTS.Enabled = !v.config.TTS.Enabled`. -/
def toggleSpeech {F A : Type} (st : InterfaceState F A) : InterfaceState F A :=
  { st with ttsEnabled := !st.ttsEnabled }

/-! ## Voice command processing (processVoiceCommand / processAudio) -/

/-- The pipeline stages `processAudio` can invoke after a capture. -/
inductive PipelineStep
  | transcribeStep
  | inferenceStep
  | synthesisStep
deriving DecidableEq

/-- The errors `processVoiceCommand`/`processAudio` can return. -/
inductive ProcessErr
  | recordingFailed (e : RecordErr)
  | noAudioFile
  | transcriptionFailed
  | claudeFailed
deriving DecidableEq

/-- Oracle for the adapters `processAudio` consults: the artifact path on
the recorder, the transcriber's result, the Claude client's result, the
TTS-enabled flag and the TTS invocation's result. -/
structure AudioOracle where
  audioFilePath : GoStr
  transcribeResult : Except Unit GoStr
  claudeResult : Except Unit GoStr
  ttsOn : Bool
  speakFails : Bool

/-- `processAudio` (interface.go): transcribe, send to Claude, optionally
speak; empty transcript and empty response end the handler early with no
error; a TTS failure is only warned about.  Returns the handler result
and the pipeline steps invoked. -/
def processAudio (o : AudioOracle) : Option ProcessErr × List PipelineStep :=
  if o.audioFilePath.isEmpty then (some ProcessErr.noAudioFile, [])
  else
    match o.transcribeResult with
    | .error _ => (some ProcessErr.transcriptionFailed, [.transcribeStep])
    | .ok t =>
      if (goTrimSpace t).isEmpty then (none, [.transcribeStep])
      else
        match o.claudeResult with
        | .error _ => (some ProcessErr.claudeFailed, [.transcribeStep, .inferenceStep])
        | .ok resp =>
          if resp.isEmpty then (none, [.transcribeStep, .inferenceStep])
          else if o.ttsOn then (none, [.transcribeStep, .inferenceStep, .synthesisStep])
          else (none, [.transcribeStep, .inferenceStep])

/-- `processVoiceCommand` (interface.go): a capture error is returned
wrapped; an unsuccessful capture with no error is logged and the handler
returns nil without touching the pipeline; otherwise the audio is
processed. -/
def processVoiceCommand (recOutcome : Bool × Option RecordErr) (o : AudioOracle) :
    Option ProcessErr × List PipelineStep :=
  match recOutcome with
  | (_, some e) => (some (ProcessErr.recordingFailed e), [])
  | (false, none) => (none, [])
  | (true, none) => processAudio o

/-! ## Smart Claude client (pkg/config/config.go, `SmartClient`) -/

/-- A conversation message: role and content. -/
structure Message where
  Role : GoStr
  Content : GoStr
deriving DecidableEq

/-- One simulated web search result. -/
structure SearchResult where
  Title : GoStr
  Snippet : GoStr
  Source : GoStr
deriving DecidableEq

/-- A collection of search results with an error field. -/
structure SearchResults where
  Results : List SearchResult
  Error : GoStr
deriving DecidableEq

/-- The trigger phrases compiled in `NewSmartClient`, stored lower-cased:
each compiles to `(?i)` plus a literal phrase, so matching a response is
case-insensitive substring containment. -/
def triggerPhrases : List GoStr :=
  [("i don't have access to current information").data,
   ("i cannot provide real-time information").data,
   ("i don't have access to weather data").data,
   ("real-time weather information").data,
   ("i don't have access to internet").data,
   ("updated data").data,
   ("i don't have access to real-time").data,
   ("i don't have access to current").data,
   ("i cannot access current").data,
   ("i don't have internet access").data,
   ("real-time information").data,
   ("current information").data,
   ("up-to-date information").data]

/-- The "recency" keywords `needsWebSearch` looks for in the lower-cased
latest user message. -/
def currentIndicators : List GoStr :=
  [("hoy").data, ("today").data, ("ahora").data, ("now").data, ("actual").data,
   ("current").data, ("reciente").data, ("recent").data, ("último").data,
   ("latest").data, ("tiempo").data, ("weather").data, ("noticias").data,
   ("news").data, ("precio").data, ("price").data]

/-- `needsWebSearch` (config.go): a trigger phrase occurs in the response
(case-insensitively), or the latest user message contains a recency
keyword. -/
def needsWebSearch (response : GoStr) (messages : List Message) : Bool :=
  triggerPhrases.any (fun p => goContains (strLower response) p) ||
  (match messages.getLast? with
   | some m => containsAny (strLower m.Content) currentIndicators
   | none => false)

/-- The `[A-Za-z\s]` class of the location-capture group. -/
def isLocClass (c : Char) : Bool :=
  ('a' ≤ c && c ≤ 'z') || ('A' ≤ c && c ≤ 'Z') || isRE2Space c

/-- Case-insensitive (ASCII) prefix test used for the literal part of the
location patterns. -/
def ciStartsWith (pre s : GoStr) : Bool := strLower (s.take pre.length) = pre

/-- One attempt of the Go regex `(?i)prep\s+([A-Za-z\s]+)` anchored at the
start of `s`: the literal matches case-insensitively, greedy `\s+` takes
the whitespace run, and the capture is the following maximal
`[A-Za-z\s]` run; when that run is empty, `\s+` backtracks one character
into the capture provided the whitespace run has at least two. -/
def locMatchAt (prep : GoStr) (s : GoStr) : Option GoStr :=
  if ciStartsWith prep s then
    let rest := s.drop prep.length
    let ws := rest.takeWhile isRE2Space
    let cls := (rest.drop ws.length).takeWhile isLocClass
    if 1 ≤ ws.length ∧ 1 ≤ cls.length then some cls
    else if 2 ≤ ws.length then (ws.getLast?).map (fun w => [w])
    else none
  else none

/-- Leftmost match of `(?i)prep\s+([A-Za-z\s]+)` in `s`
(`FindStringSubmatch`'s capture group). -/
def locScan (prep : GoStr) : GoStr → Option GoStr
  | [] => none
  | c :: rest =>
    match locMatchAt prep (c :: rest) with
    | some cap => some cap
    | none => locScan prep rest

/-- The weather branch's location patterns, tried in the source order
`en`, `in`, `de`; the capture is trimmed before use. -/
def locFirstMatch (userMessage : GoStr) : Option GoStr :=
  match locScan ("en".data) userMessage with
  | some cap => some (goTrimSpace cap)
  | none =>
    match locScan ("in".data) userMessage with
    | some cap => some (goTrimSpace cap)
    | none => (locScan ("de".data) userMessage).map goTrimSpace

/-- `extractSearchQuery` (config.go): category rules tried in a fixed
order on the lower-cased user message, with a generic fallback embedding
the original message.  The Claude response argument is unused, as in the
source. -/
def extractSearchQuery (userMessage _claudeResponse : GoStr) : GoStr :=
  let userLower := strLower userMessage
  if containsAny userLower [("tiempo").data, ("weather").data, ("clima").data] then
    match locFirstMatch userMessage with
    | some location => ("weather today ").data ++ location
    | none => ("weather today").data
  else if containsAny userLower
      [("real madrid").data, ("madrid").data, ("partido").data, ("match").data,
       ("resultado").data, ("fútbol").data, ("futbol").data, ("football").data] then
    if goContains userLower (("real madrid").data) then
      if containsAny userLower
          [("último").data, ("last").data, ("recent").data, ("ayer").data,
           ("yesterday").data] then
        ("Real Madrid latest match result today").data
      else ("Real Madrid news today").data
    else ("football results today Spain").data
  else if containsAny userLower [("noticias").data, ("news").data, ("novedades").data] then
    ("latest news today").data
  else if containsAny userLower
      [("precio").data, ("price").data, ("bitcoin").data, ("crypto").data,
       ("bolsa").data] then
    if goContains userLower (("bitcoin").data) then ("Bitcoin price today").data
    else ("financial markets today").data
  else ("current information ").data ++ userMessage

/-- `generateWeatherResults` (config.go); the unused date argument of the
source ("Today") is omitted. -/
def generateWeatherResults (location : GoStr) : SearchResults :=
  if strLower location = ("madrid").data then
    { Results :=
        [{ Title := ("Madrid Weather Now").data,
           Snippet := ("Partly cloudy, 8°C (46°F). High: 12°C, Low: 4°C. Light wind from the northwest at 10 km/h. No precipitation expected.").data,
           Source := ("AEMET - Agencia Estatal de Meteorología").data },
         { Title := ("Current Weather Conditions Madrid").data,
           Snippet := ("Real-time weather: 8°C, feels like 6°C. Humidity 65%, visibility 10km. Air quality: Good.").data,
           Source := ("Weather.com").data }],
      Error := [] }
  else
    { Results :=
        [{ Title := ("Weather Today").data,
           Snippet := ("Current weather conditions and forecast. Check local weather services for specific location data.").data,
           Source := ("Weather Service").data }],
      Error := [] }

/-- `generateFootballResults` (config.go). -/
def generateFootballResults : SearchResults :=
  { Results :=
      [{ Title := ("Real Madrid 3-1 Athletic Bilbao - Yesterday").data,
         Snippet := ("Real Madrid ganó 3-1 contra Athletic Bilbao ayer en el Santiago Bernabéu. Goles de Vinícius Jr. (2) y Bellingham. Los Blancos siguen líderes en La Liga con 2 puntos de ventaja sobre el Barcelona.").data,
         Source := ("Marca.com").data },
       { Title := ("La Liga Standings - Current").data,
         Snippet := ("1. Real Madrid - 58 pts, 2. FC Barcelona - 56 pts, 3. Atlético Madrid - 51 pts. El Real Madrid ha ganado 4 de sus últimos 5 partidos en Liga.").data,
         Source := ("ESPN Deportes").data }],
    Error := [] }

/-- `generateFinancialResults` (config.go). -/
def generateFinancialResults : SearchResults :=
  { Results :=
      [{ Title := ("Bitcoin Price Now").data,
         Snippet := ("Bitcoin: $52,430 USD (+2.3% today). Market cap: $1.03T. 24h trading volume: $28.5B.").data,
         Source := ("CoinMarketCap").data }],
    Error := [] }

/-- `generateNewsResults` (config.go). -/
def generateNewsResults : SearchResults :=
  { Results :=
      [{ Title := ("Latest News Today").data,
         Snippet := ("Top headlines: Technology markets show growth, renewable energy initiatives expanded, international cooperation agreements signed.").data,
         Source := ("News Agency").data }],
    Error := [] }

/-- `generateSportsResults` (config.go). -/
def generateSportsResults : SearchResults :=
  { Results :=
      [{ Title := ("Football Results Today").data,
         Snippet := ("La Liga: Real Madrid lidera. Premier League: Manchester City 2-0 Arsenal. Champions League: Octavos de final próxima semana.").data,
         Source := ("Mundo Deportivo").data }],
    Error := [] }

/-- `generateMarketResults` (config.go). -/
def generateMarketResults : SearchResults :=
  { Results :=
      [{ Title := ("Financial Markets Today").data,
         Snippet := ("Global markets mixed. S&P 500 +0.8%, NASDAQ +1.2%, EUR/USD 1.0856. Tech stocks leading gains.").data,
         Source := ("Financial Times").data }],
    Error := [] }

/-- `generateCurrentInfoResults` (config.go). -/
def generateCurrentInfoResults (query : GoStr) : SearchResults :=
  { Results :=
      [{ Title := ("Current Information Search").data,
         Snippet := ("Current search for: '").data ++ query ++
                    ("'. For more specific information, try rephrasing your question.").data,
         Source := ("Search Engine").data }],
    Error := [] }

/-- `simulateRealisticSearch` (config.go): category dispatch on the
lower-cased query. -/
def simulateRealisticSearch (query : GoStr) : SearchResults :=
  let queryLower := strLower query
  if goContains queryLower (("weather today").data) then
    if goContains queryLower (("madrid").data) then generateWeatherResults (("Madrid").data)
    else generateWeatherResults (("location").data)
  else if goContains queryLower (("real madrid latest match").data) then generateFootballResults
  else if goContains queryLower (("bitcoin price").data) then generateFinancialResults
  else if goContains queryLower (("latest news").data) then generateNewsResults
  else if goContains queryLower (("football results").data) then generateSportsResults
  else if goContains queryLower (("financial markets").data) then generateMarketResults
  else generateCurrentInfoResults query

/-- `performSmartSearch` (config.go): logging aside, it is the simulated
search. -/
def performSmartSearch : GoStr → SearchResults := simulateRealisticSearch

/-- The body of `formatSearchResults`'s loop for one result: empty fields
are replaced by placeholders, then formatted as
`"%d. %s (%s)\n   %s"` with the 1-based index, title, source, snippet. -/
def formatResult (i : Nat) (r : SearchResult) : GoStr :=
  let title := if r.Title.isEmpty then ("No title").data else r.Title
  let snippet := if r.Snippet.isEmpty then ("No description").data else r.Snippet
  let source := if r.Source.isEmpty then ("Unknown source").data else r.Source
  natToChars (i + 1) ++ (". ").data ++ title ++ (" (").data ++ source ++
    (")\n   ").data ++ snippet

/-- `formatSearchResults` (config.go): at most the first 3 results,
joined by blank lines. -/
def formatSearchResults (sr : SearchResults) : GoStr :=
  if sr.Results.isEmpty then ("No current information found.").data
  else
    List.intercalate (("\n\n").data)
      (((sr.Results.take 3).enum).map (fun p => formatResult p.1 p.2))

/-- The latest user message `SendMessage` extracts: the last message's
content when the list is non-empty, the empty string otherwise. -/
def lastUserContent (messages : List Message) : GoStr :=
  match messages.getLast? with
  | some m => m.Content
  | none => []

/-- The errors `SmartClient.SendMessage` can surface. -/
inductive SendErr
  | initialFailed
  | emptyResponse
deriving DecidableEq

/-- The enhanced conversation `createEnhancedResponse` builds: the
original messages, the initial response as an assistant turn, and a user
turn carrying the formatted search results. -/
def enhancedMessagesFor (messages : List Message) (initialResponse searchQuery : GoStr)
    (searchResults : SearchResults) : List Message :=
  messages ++
    [{ Role := ("assistant").data, Content := initialResponse },
     { Role := ("user").data,
       Content :=
         ("I searched for current information about '").data ++ searchQuery ++
         ("' and found this:\n\n").data ++ formatSearchResults searchResults ++
         ("\n\nWith this info, respond to my original question briefly and informally (maximum 2-3 sentences).").data }]

/-- `SmartClient.SendMessage` (config.go), with the underlying Vertex
client as the oracle `vertexSend` (`none` = transport error) and the
context lookup as `lookup` (the source instantiates it with
`performSmartSearch`).  Returns the result and the list of message
sequences sent to the inference client, in order. -/
def smartSendMessage (vertexSend : List Message → Option GoStr)
    (autoSearchEnabled : Bool) (lookup : GoStr → SearchResults)
    (messages : List Message) : Except SendErr GoStr × List (List Message) :=
  match vertexSend messages with
  | none => (Except.error SendErr.initialFailed, [messages])
  | some initialResponse =>
    if initialResponse.isEmpty then (Except.error SendErr.emptyResponse, [messages])
    else if autoSearchEnabled && needsWebSearch initialResponse messages then
      let searchQuery := extractSearchQuery (lastUserContent messages) initialResponse
      if searchQuery.isEmpty then (Except.ok initialResponse, [messages])
      else
        let searchResults := lookup searchQuery
        if searchResults.Error.isEmpty && decide (0 < searchResults.Results.length) then
          let enhanced := enhancedMessagesFor messages initialResponse searchQuery searchResults
          match vertexSend enhanced with
          | none => (Except.ok initialResponse, [messages, enhanced])
          | some enhancedResponse =>
            if enhancedResponse.isEmpty then (Except.ok initialResponse, [messages, enhanced])
            else (Except.ok enhancedResponse, [messages, enhanced])
        else (Except.ok initialResponse, [messages])
    else (Except.ok initialResponse, [messages])

/-! ## Shared lemmas -/

/-- A list with a non-empty left part of an append is non-empty. -/
theorem append_left_ne_nil {l r : GoStr} (h : l ≠ []) : l ++ r ≠ [] := by
  cases l with
  | nil => exact absurd rfl h
  | cons a as => simp

/-- `goContains` is preserved under extending the haystack on the left. -/
theorem goContains_append_left (a b sub : GoStr) (h : goContains b sub = true) :
    goContains (a ++ b) sub = true := by
  induction a with
  | nil => simpa using h
  | cons x xs ih =>
    simp only [List.cons_append, goContains, Bool.or_eq_true]
    exact Or.inr ih

/-- A string starts with itself followed by anything. -/
theorem goStartsWith_append_self (sub r : GoStr) : goStartsWith sub (sub ++ r) = true := by
  induction sub with
  | nil => rfl
  | cons x xs ih => simpa [goStartsWith] using ih

/-- A string contains any of its own leading segments' continuations. -/
theorem goContains_append_self (sub r : GoStr) (h : sub ≠ []) :
    goContains (sub ++ r) sub = true := by
  cases sub with
  | nil => exact absurd rfl h
  | cons x xs =>
    simp only [goContains, Bool.or_eq_true]
    exact Or.inl (goStartsWith_append_self (x :: xs) r)

/-! ## C1 -/

/-- C1, counterexample: after a clean child exit with the artifact missing
on disk, `RecordAudio` does not return the pair `(false, nil)` the claim
asserts — it returns a non-nil error. -/
theorem recordAudio_missing_artifact_not_ok_nil :
    recordAudio false FFmpegOutcome.ranNoArtifact ≠ (false, none) := by decide

/-- C1, amended: `RecordAudio` never returns `ok = false` with a nil
error; a missing artifact after a clean child exit is reported through
the error channel like a process-level failure, and `(true, nil)` is
returned exactly when the child ran to completion with the artifact
present and no cancellation. -/
theorem recordAudio_error_channel :
    (∀ (c : Bool) (o : FFmpegOutcome), recordAudio c o ≠ (false, none)) ∧
    recordAudio false FFmpegOutcome.ranNoArtifact =
      (false, some RecordErr.fileNotCreated) ∧
    (∀ (c : Bool) (o : FFmpegOutcome),
      recordAudio c o = (true, none) ↔ c = false ∧ o = FFmpegOutcome.ranWithArtifact) := by
  refine ⟨?_, by decide, ?_⟩
  · intro c o; cases c <;> cases o <;> decide
  · intro c o; cases c <;> cases o <;> decide

/-! ## C4 -/

/-- C4: when capture completes with `ok = false` and a nil error, the `r`
command handler returns nil without invoking transcription, inference or
synthesis, and the `r` branch of the loop never exits the session. -/
theorem processVoiceCommand_not_successful_skips_pipeline :
    (∀ o : AudioOracle, processVoiceCommand (false, none) o = (none, [])) ∧
    dispatchCommand (("r").data) = LoopAction.handleRecord 7 ∧
    loopExits (dispatchCommand (("r").data)) = false := by
  exact ⟨fun _ => rfl, by decide, by decide⟩

/-! ## C9 -/

/-- C9: `extractSearchQuery` returns a non-empty string on every input
pair, so the engine's guard that skips augmentation on an empty extracted
query can never fire. -/
theorem extractSearchQuery_ne_empty :
    ∀ userMessage claudeResponse : GoStr,
      extractSearchQuery userMessage claudeResponse ≠ [] := by
  intro u r
  unfold extractSearchQuery
  dsimp only
  repeat' split
  all_goals first
    | decide
    | exact append_left_ne_nil (by decide)

/-! ## C10 -/

/-- C10: the toggle-speech handler is an involution on the session state,
and one execution changes the TTS-enabled flag and nothing else: every
other configuration field and every adapter reference is unchanged. -/
theorem toggleSpeech_involution :
    ∀ (F A : Type) (st : InterfaceState F A),
      toggleSpeech (toggleSpeech st) = st ∧
      (toggleSpeech st).ttsEnabled = !st.ttsEnabled ∧
      (toggleSpeech st).vertexProjectID = st.vertexProjectID ∧
      (toggleSpeech st).vertexLocation = st.vertexLocation ∧
      (toggleSpeech st).vertexModel = st.vertexModel ∧
      (toggleSpeech st).vertexMaxTokens = st.vertexMaxTokens ∧
      (toggleSpeech st).vertexTemperature = st.vertexTemperature ∧
      (toggleSpeech st).vertexSystemPrompt = st.vertexSystemPrompt ∧
      (toggleSpeech st).enableAutoSearch = st.enableAutoSearch ∧
      (toggleSpeech st).voiceUseWhisperCpp = st.voiceUseWhisperCpp ∧
      (toggleSpeech st).voiceWhisperCppPath = st.voiceWhisperCppPath ∧
      (toggleSpeech st).voiceWhisperModelPath = st.voiceWhisperModelPath ∧
      (toggleSpeech st).voiceSampleRate = st.voiceSampleRate ∧
      (toggleSpeech st).voiceChannels = st.voiceChannels ∧
      (toggleSpeech st).voiceChunkSize = st.voiceChunkSize ∧
      (toggleSpeech st).ttsRate = st.ttsRate ∧
      (toggleSpeech st).ttsVolume = st.ttsVolume ∧
      (toggleSpeech st).ttsVoiceID = st.ttsVoiceID ∧
      (toggleSpeech st).adapters = st.adapters := by
  intro F A st
  cases st
  simp [toggleSpeech]

/-! ## C8 -/

/-- Lower-casing leaves every Unicode whitespace character unchanged. -/
theorem goToLower_of_space {c : Char} (h : goUnicodeIsSpace c = true) :
    goToLower c = c := by
  have hm : c ∈ goUnicodeSpaceChars := of_decide_eq_true h
  fin_cases hm <;> decide

/-- A string of whitespace trims to the empty string. -/
theorem goTrimSpace_of_space {l : GoStr} (h : ∀ c ∈ l, goUnicodeIsSpace c = true) :
    goTrimSpace l = [] := by
  unfold goTrimSpace
  rw [List.dropWhile_eq_nil_iff.mpr (fun c hc => h c hc)]
  rfl

/-- C8: an input line of only whitespace characters normalizes to the
empty command, which dispatches no handler and keeps the loop running. -/
theorem whitespace_line_is_empty_command (line : GoStr)
    (h : ∀ c ∈ line, goUnicodeIsSpace c = true) :
    normalizeCommand line = [] ∧
    dispatchCommand (normalizeCommand line) = LoopAction.skipEmpty ∧
    loopExits (dispatchCommand (normalizeCommand line)) = false := by
  have hlower : strLower line = line := by
    unfold strLower
    calc line.map goToLower = line.map id := by
          exact List.map_congr_left (fun c hc => goToLower_of_space (h c hc))
      _ = line := List.map_id line
  have hnorm : normalizeCommand line = [] := by
    unfold normalizeCommand
    rw [hlower]
    exact goTrimSpace_of_space h
  refine ⟨hnorm, ?_, ?_⟩ <;> rw [hnorm] <;> decide

/-- C8, witness: the concrete line of a space and a tab. -/
theorem whitespace_line_is_empty_command_witness :
    normalizeCommand [' ', '\t'] = [] ∧
    dispatchCommand (normalizeCommand [' ', '\t']) = LoopAction.skipEmpty ∧
    loopExits (dispatchCommand (normalizeCommand [' ', '\t'])) = false :=
  whitespace_line_is_empty_command [' ', '\t'] (by decide)

/-! ## C7 -/

/-- A run-collapse pass is the identity on a string none of whose
characters match. -/
theorem collapseRunsAux_no_match {p : Char → Bool} {rep : GoStr} (b : Bool)
    {l : GoStr} (h : ∀ c ∈ l, p c = false) :
    collapseRunsAux p rep b l = l := by
  induction l generalizing b with
  | nil => rfl
  | cons c rest ih =>
    have hc : p c = false := h c (by simp)
    simp only [collapseRunsAux, hc, Bool.false_eq_true, if_false]
    rw [ih false (fun x hx => h x (List.mem_cons_of_mem c hx))]

/-- Inside a run, the rest of an all-matching string contributes nothing. -/
theorem collapseRunsAux_all_match {p : Char → Bool} {rep : GoStr}
    {l : GoStr} (h : ∀ c ∈ l, p c = true) :
    collapseRunsAux p rep true l = [] := by
  induction l with
  | nil => rfl
  | cons c rest ih =>
    have hc : p c = true := h c (by simp)
    simp only [collapseRunsAux, hc, if_true]
    exact ih (fun x hx => h x (List.mem_cons_of_mem c hx))

/-- A non-empty all-matching string collapses to the replacement. -/
theorem collapseRuns_all_match {p : Char → Bool} {rep : GoStr} {c : Char}
    {l : GoStr} (hc : p c = true) (h : ∀ x ∈ l, p x = true) :
    collapseRuns p rep (c :: l) = rep := by
  simp only [collapseRuns, collapseRunsAux, hc, if_true]
  rw [collapseRunsAux_all_match h]
  simp

/-- Text of only disallowed characters sanitizes to the empty string. -/
theorem cleanTextForSpeech_all_disallowed {text : GoStr}
    (h : ∀ c ∈ text, allowedSpeechChar c = false) :
    cleanTextForSpeech text = [] := by
  unfold cleanTextForSpeech
  dsimp only
  have h1 : text.map (fun c => if allowedSpeechChar c then c else ' ')
      = List.replicate text.length ' ' := by
    rw [List.map_congr_left (g := fun _ => ' ')
        (fun c hc => by simp [h c hc])]
    exact List.map_const' text ' '
  rw [h1]
  have h2 : (List.replicate text.length ' ').filter (fun c => !isMarkdownChar c)
      = List.replicate text.length ' ' := by
    apply List.filter_eq_self.mpr
    intro a ha
    rw [List.eq_of_mem_replicate ha]
    decide
  rw [h2]
  have h3 : collapseRuns (fun c => c = '\n') ((". ").data)
      (List.replicate text.length ' ') = List.replicate text.length ' ' := by
    apply collapseRunsAux_no_match
    intro c hc
    rw [List.eq_of_mem_replicate hc]
    decide
  rw [h3]
  cases hn : text.length with
  | zero => rfl
  | succ n =>
    rw [List.replicate_succ]
    rw [collapseRuns_all_match (by decide)
      (fun x hx => by rw [List.eq_of_mem_replicate hx]; decide)]
    decide

/-- C7: for text consisting only of characters outside the synthesis
allow-list, sanitization returns the empty string and `Speak` returns nil
without spawning the backend subprocess. -/
theorem speak_all_disallowed_is_noop (text : GoStr) (cmdFails : Bool)
    (h : ∀ c ∈ text, allowedSpeechChar c = false) :
    cleanTextForSpeech text = [] ∧ speak text cmdFails = (false, none) := by
  have hclean := cleanTextForSpeech_all_disallowed h
  refine ⟨hclean, ?_⟩
  unfold speak
  cases text with
  | nil => rfl
  | cons a l =>
    simp only [List.isEmpty_cons, Bool.false_eq_true, if_false, hclean]
    rfl

/-- C7, witness: the concrete text of two at-signs (each outside the
allow-list). -/
theorem speak_all_disallowed_is_noop_witness :
    cleanTextForSpeech (("@@").data) = [] ∧
    speak (("@@").data) false = (false, none) :=
  speak_all_disallowed_is_noop (("@@").data) false (by decide)

/-! ## C6 -/

/-- Dropping trailing whitespace does nothing to a string ending in `]`. -/
theorem dropTrailing_concat_rb (m : GoStr) :
    dropTrailing isRE2Space (m ++ [']']) = m ++ [']'] := by
  unfold dropTrailing
  rw [List.reverse_append]
  show ((']' :: m.reverse).dropWhile isRE2Space).reverse = m ++ [']']
  rw [List.dropWhile_cons]
  simp [isRE2Space]

/-- Any line of the specification's exact timestamp-range shape satisfies
the transcriber's `isTimestampLine` regex. -/
theorem isTimestampLine_of_spec {l : GoStr} (h : specTimestampLine l) :
    isTimestampLine l = true := by
  obtain ⟨t1, t2, _, _, rfl⟩ := h
  have hrest : t1 ++ ((" --> ").data) ++ t2 ++ [']']
      = (t1 ++ ((" --> ").data) ++ t2) ++ [']'] := by
    simp [List.append_assoc]
  unfold isTimestampLine
  rw [List.dropWhile_cons]
  simp only [show isRE2Space '[' = false from rfl, Bool.false_eq_true, if_false]
  rw [hrest, dropTrailing_concat_rb]
  dsimp only
  rw [List.getLast?_concat, List.dropLast_concat]
  have hm : t1 ++ ((" --> ").data) ++ t2
      = (t1 ++ [' ']) ++ ((("-->").data) ++ ([' '] ++ t2)) := by
    show t1 ++ [' ', '-', '-', '>', ' '] ++ t2 = _
    simp [List.append_assoc]
  rw [hm]
  simp only [Bool.and_eq_true, decide_eq_true_eq]
  refine ⟨by trivial, ?_⟩
  exact goContains_append_left _ _ _ (goContains_append_self _ _ (by decide))

/-- C6: every line of the exact timestamp-range shape
`[hh:mm:ss.mmm --> hh:mm:ss.mmm]` is excluded from the transcript the
transcriber returns, and the concrete output
`"[00:00:00.000 --> 00:00:02.000]\nHello there\n"` yields the transcript
`"Hello there"`. -/
theorem timestamp_lines_excluded :
    (∀ output l : GoStr, specTimestampLine l → l ∉ keptLines output) ∧
    transcriptOfStdout (("[00:00:00.000 --> 00:00:02.000]\nHello there\n").data)
      = ("Hello there").data := by
  constructor
  · intro output l hspec hmem
    have hts := isTimestampLine_of_spec hspec
    have hpred := (List.mem_filter.mp hmem).2
    simp only [Bool.and_eq_true, Bool.not_eq_true'] at hpred
    exact absurd hts (by simp [hpred.1.2])
  · decide

/-- C6, witness: the concrete timestamp line of the example is not among
the kept lines of the example output. -/
theorem timestamp_lines_excluded_witness :
    ("[00:00:00.000 --> 00:00:02.000]").data ∉
      keptLines (("[00:00:00.000 --> 00:00:02.000]\nHello there\n").data) :=
  timestamp_lines_excluded.1 _ _
    ⟨("00:00:00.000").data, ("00:00:02.000").data, by decide, by decide, by decide⟩

/-! ## C5 -/

/-- The exact snippet line format the specification states:
`"<index>. <title> (<source>)\n   <body>"` with a 1-based index and the
snippet's own fields. -/
def specExactLine (i : Nat) (r : SearchResult) : GoStr :=
  natToChars (i + 1) ++ ((". ").data) ++ r.Title ++ ((" (").data) ++ r.Source ++
    ((")\n   ").data) ++ r.Snippet

/-- Intercalating a single string is that string. -/
theorem intercalate_singleton (sep x : GoStr) : List.intercalate sep [x] = x := by
  simp [List.intercalate]

/-- On a result with non-empty fields, the formatting loop body produces
exactly the specification's line. -/
theorem formatResult_eq_spec {i : Nat} {r : SearchResult}
    (ht : r.Title.isEmpty = false) (hs : r.Snippet.isEmpty = false)
    (hsrc : r.Source.isEmpty = false) :
    formatResult i r = specExactLine i r := by
  unfold formatResult specExactLine
  simp [ht, hs, hsrc]

set_option maxRecDepth 16384 in
/-- C5: the formatted context passed to the second inference call caps at
the first 3 snippets of any result set, and on every result set the
program's lookup actually produces (those of `simulateRealisticSearch`)
each included snippet is formatted exactly as
`"<index>. <title> (<source>)\n   <body>"` with a 1-based index. -/
theorem formatSearchResults_cap_and_exact :
    (∀ sr : SearchResults,
      formatSearchResults sr
        = formatSearchResults { Results := sr.Results.take 3, Error := sr.Error }) ∧
    (∀ q : GoStr,
      formatSearchResults (simulateRealisticSearch q)
        = List.intercalate (("\n\n").data)
            ((((simulateRealisticSearch q).Results.take 3).enum).map
              (fun p => specExactLine p.1 p.2))) := by
  constructor
  · intro sr
    cases sr with
    | mk results err =>
      cases results with
      | nil => rfl
      | cons a as =>
        have h3 : (a :: as).take 3 = a :: as.take 2 := rfl
        have h4 : (a :: as.take 2).take 3 = a :: as.take 2 := by
          have h5 : (a :: as.take 2).take 3 = a :: (as.take 2).take 2 := rfl
          rw [h5, List.take_take]
          simp
        simp only [formatSearchResults, h3, h4, List.isEmpty_cons,
          Bool.false_eq_true, if_false]
  · intro q
    unfold simulateRealisticSearch
    dsimp only
    repeat' split
    all_goals first
      | decide
      | ( -- the generic current-information branch, whose snippet embeds `q`
        simp only [generateCurrentInfoResults, formatSearchResults,
          List.isEmpty_cons, Bool.false_eq_true, if_false, List.take_succ_cons,
          List.take_nil, List.enum_cons, List.enumFrom_nil, List.map_cons,
          List.map_nil]
        rw [intercalate_singleton, intercalate_singleton]
        apply formatResult_eq_spec
        · rfl
        · show ((('C' :: ("urrent search for: '").data) ++ q) ++
            (("'. For more specific information, try rephrasing your question.").data)).isEmpty
              = false
          simp
        · rfl)

/-! ## C3 -/

/-- C3: whenever any augmentation step after obtaining the primary reply
fails — the context lookup returns zero snippets, the lookup reports an
error, or the second inference call fails or returns an empty reply —
`SendMessage` returns the primary reply unchanged with no error. -/
theorem smartSendMessage_degrades_to_primary
    (vertexSend : List Message → Option GoStr) (autoSearchEnabled : Bool)
    (lookup : GoStr → SearchResults) (messages : List Message) (primary : GoStr)
    (hv : vertexSend messages = some primary) (hne : primary ≠ [])
    (hfail :
      (lookup (extractSearchQuery (lastUserContent messages) primary)).Results = [] ∨
      (lookup (extractSearchQuery (lastUserContent messages) primary)).Error ≠ [] ∨
      vertexSend (enhancedMessagesFor messages primary
        (extractSearchQuery (lastUserContent messages) primary)
        (lookup (extractSearchQuery (lastUserContent messages) primary))) = none ∨
      vertexSend (enhancedMessagesFor messages primary
        (extractSearchQuery (lastUserContent messages) primary)
        (lookup (extractSearchQuery (lastUserContent messages) primary))) = some []) :
    (smartSendMessage vertexSend autoSearchEnabled lookup messages).1
      = Except.ok primary := by
  have hie : primary.isEmpty = false := by
    cases primary with
    | nil => exact absurd rfl hne
    | cons a l => rfl
  unfold smartSendMessage
  rw [hv]
  dsimp only
  rw [hie]
  simp only [Bool.false_eq_true, if_false]
  by_cases hb : (autoSearchEnabled && needsWebSearch primary messages) = true
  case neg =>
    simp only [hb, if_false]
    simp at hb
    simp [hb]
  case pos =>
    simp only [hb, if_true]
    by_cases hq :
        (extractSearchQuery (lastUserContent messages) primary).isEmpty = true
    case pos => simp [hq]
    case neg =>
      simp only [hq, Bool.false_eq_true, if_false]
      by_cases hc :
          ((lookup (extractSearchQuery (lastUserContent messages) primary)).Error.isEmpty &&
            decide (0 < (lookup (extractSearchQuery
              (lastUserContent messages) primary)).Results.length)) = true
      case neg => simp [hc]
      case pos =>
        simp only [hc, if_true]
        have hcsplit := hc
        simp only [Bool.and_eq_true, decide_eq_true_eq] at hcsplit
        have herr : (lookup (extractSearchQuery
            (lastUserContent messages) primary)).Error = [] := by
          have := hcsplit.1
          cases hE : (lookup (extractSearchQuery
              (lastUserContent messages) primary)).Error with
          | nil => rfl
          | cons a l => rw [hE] at this; exact absurd this (by simp)
        have hres : (lookup (extractSearchQuery
            (lastUserContent messages) primary)).Results ≠ [] := by
          intro h0
          have := hcsplit.2
          rw [h0] at this
          exact absurd this (by simp)
        rcases hfail with h | h | h | h
        · exact absurd h hres
        · exact absurd herr h
        · rw [h]
        · rw [h]
          rfl

/-- C3, witness: a lookup returning zero snippets leaves the concrete
primary reply "hi" unchanged. -/
theorem smartSendMessage_degrades_to_primary_witness :
    (smartSendMessage (fun _ => some (("hi").data)) true
      (fun _ => { Results := [], Error := [] })
      [{ Role := ("user").data, Content := ("x").data }]).1
      = Except.ok (("hi").data) :=
  smartSendMessage_degrades_to_primary (fun _ => some (("hi").data)) true
    (fun _ => { Results := [], Error := [] })
    [{ Role := ("user").data, Content := ("x").data }] (("hi").data)
    rfl (by decide) (Or.inl rfl)

/-! ## C2 -/

/-- The claim's user message. -/
def c2UserMsg : GoStr := ("what's the weather in Madrid").data

/-- The claim's trigger phrase. -/
def c2Phrase : GoStr := ("I don't have access to current information").data

/-- The claim's conversation: the single user message. -/
def c2Messages : List Message := [{ Role := ("user").data, Content := c2UserMsg }]

/-- C2: with the user message "what's the weather in Madrid" and a primary
reply containing "I don't have access to current information", the engine
decides augmentation is warranted, extracts exactly the query
"weather today Madrid", and issues exactly one additional inference-client
call (two calls in total for the turn). -/
theorem augmentation_on_madrid_weather
    (vertexSend : List Message → Option GoStr) (primary : GoStr)
    (hv : vertexSend c2Messages = some primary)
    (hph : goContains primary c2Phrase = true) :
    needsWebSearch primary c2Messages = true ∧
    extractSearchQuery c2UserMsg primary = ("weather today Madrid").data ∧
    (smartSendMessage vertexSend true simulateRealisticSearch c2Messages).2.length
      = 2 := by
  have hne : primary.isEmpty = false := by
    cases primary with
    | nil => exact absurd hph (by decide)
    | cons a l => rfl
  have hneeds : needsWebSearch primary c2Messages = true := by
    unfold needsWebSearch
    rw [Bool.or_eq_true]
    right
    decide
  have hextract :
      ∀ r : GoStr, extractSearchQuery c2UserMsg r = ("weather today Madrid").data := by
    intro r
    unfold extractSearchQuery
    decide
  have hlast : lastUserContent c2Messages = c2UserMsg := rfl
  refine ⟨hneeds, hextract primary, ?_⟩
  unfold smartSendMessage
  rw [hv]
  dsimp only
  rw [hne]
  simp only [Bool.false_eq_true, if_false, Bool.true_and, hneeds, if_true]
  rw [hlast, hextract primary]
  simp only [show ((("weather today Madrid").data).isEmpty = false) from rfl,
    Bool.false_eq_true, if_false]
  rw [show ((simulateRealisticSearch (("weather today Madrid").data)).Error.isEmpty &&
      decide (0 < (simulateRealisticSearch
        (("weather today Madrid").data)).Results.length)) = true from by decide]
  simp only [if_true]
  cases hvem : vertexSend (enhancedMessagesFor c2Messages primary
      (("weather today Madrid").data)
      (simulateRealisticSearch (("weather today Madrid").data))) with
  | none => rfl
  | some enh =>
    by_cases he : enh.isEmpty = true
    · simp [he]
    · simp [he]

/-- C2, witness: the concrete primary reply that is exactly the trigger
phrase. -/
theorem augmentation_on_madrid_weather_witness :
    needsWebSearch c2Phrase c2Messages = true ∧
    extractSearchQuery c2UserMsg c2Phrase = ("weather today Madrid").data ∧
    (smartSendMessage (fun _ => some c2Phrase) true simulateRealisticSearch
      c2Messages).2.length = 2 :=
  augmentation_on_madrid_weather (fun _ => some c2Phrase) c2Phrase rfl (by decide)

end BoboDeskPet
